import Mathlib

/-!
Verification development for the computational-graph reconstruction component
(`chainer/computational_graph.py`).

The node model (`Variable`, `Function`, the `Split` tag) lives in
`chainer/variable.py` / `chainer/function.py`, which are external collaborators
of this component; they are modelled here from the data model of the specification:
a Value has an optional label, an optional creator Operation, and (for ordering
purposes) an optional rank; an Operation has a label, an ordered input list, an
integer rank, and a tag marking `Split` operations.

Node identity is represented by a natural-number id; an `Env` maps ids to node
data.  A `Node` reference is tagged by kind (value vs. function), mirroring the
`isinstance` dispatch of the source.  Fallible Python behaviour (unbound local
`creator` → NameError, `None.inputs` → AttributeError, `inputs[0]` on an empty
list → IndexError, the `assert` in `_to_dot`) is made explicit with
`Except PyError`.  The `while cands` loop is run on explicit fuel; exhausting
the fuel yields the distinguished `fuelExhausted` marker (an artifact of the
embedding; all theorems below either run concrete graphs well within the fuel
or take a successful run as hypothesis).
-/

namespace Chainer

/-- Modelled from the spec: a Value node of `chainer/variable.py` (absent from
the excerpt).  It carries an optional label, an optional creator Operation
reference, and an optional rank used for traversal ordering. -/
structure Variable where
  id : Nat
  label : String
  creator : Option Nat
  rank : Option Int
deriving DecidableEq

/-- Modelled from the spec: an Operation node of `chainer/function.py` (absent
from the excerpt): label, ordered list of input Value ids, integer rank, and a
tag marking the `Split` subclass. -/
structure Function where
  id : Nat
  label : String
  inputs : List Nat
  rank : Int
  isSplit : Bool
deriving DecidableEq

/-- The graph environment: all Value and Operation nodes, looked up by id. -/
structure Env where
  vals : List Variable
  fns : List Function

/-- A node reference, tagged by kind (mirrors `isinstance` dispatch). -/
inductive Node where
  | val (i : Nat)
  | fn (i : Nat)
deriving DecidableEq

/-- An edge is an ordered (producer, consumer) pair of node references. -/
abbrev Edge := Node × Node

/-- Explicit Python-level failures of the embedded code. -/
inductive PyError where
  | nameError
  | attributeError
  | indexError
  | lookupError
  | assertionError
  | fuelExhausted
deriving DecidableEq

def lookupVal (env : Env) (i : Nat) : Option Variable :=
  env.vals.find? (fun v => v.id == i)

def lookupFn (env : Env) (i : Nat) : Option Function :=
  env.fns.find? (fun f => f.id == i)

/-- Modelled from the spec: the rank a Value contributes as heap key
(`cand.rank` at the `heapq.heappush` site reads `Variable.rank`, which is not
in the excerpt).  Per the spec, the ordering rank of an output Value is
read from the Value itself if present, else treated as the rank of its creator, or a
minimal default when there is no creator. -/
def valueRank (env : Env) (v : Variable) : Int :=
  match v.rank with
  | some r => r
  | none =>
    match v.creator with
    | some c =>
      match lookupFn env c with
      | some f => f.rank
      | none => 0
    | none => 0

/-- A pending heap entry `(-cand.rank, push_count, cand)` as pushed by
`add_cand` in `build_computational_graph`. -/
abbrev Entry := Int × Nat × Node

/-- Lexicographic comparison on `(-rank, push_count)`; since push counts are
unique, this totally orders the live entries exactly as `heapq` does. -/
def entry_lt (a b : Entry) : Bool :=
  decide (a.1 < b.1) || (decide (a.1 = b.1) && decide (a.2.1 < b.2.1))

/-- Pop the minimum entry of the heap (the element `heapq.heappop` returns),
together with the remaining entries. -/
def popMin : List Entry → Option (Entry × List Entry)
  | [] => none
  | e :: es =>
    match popMin es with
    | none => some (e, [])
    | some (m, rest) => if entry_lt m e then some (m, e :: rest) else some (e, es)

/-- The mutable state of one `build_computational_graph` invocation: the
candidate heap, the push counter of `heap_with_push_counter`, the `seen_edges`
set (as an insertion-ordered duplicate-free list), and the Python local
variable `creator` (`none` = unbound, `some none` = bound to `None`,
`some (some c)` = bound to the Operation `c`). -/
structure LoopState where
  cands : List Entry
  pushCount : Nat
  seen : List Edge
  creatorVar : Option (Option Nat)
deriving DecidableEq

def init_state : LoopState :=
  { cands := [], pushCount := 0, seen := [], creatorVar := none }

/-- Models `seen_edges.add(e)`: a Python set add, a no-op when already present. -/
def seen_add (seen : List Edge) (e : Edge) : List Edge :=
  if e ∈ seen then seen else seen ++ [e]

/-- Reads `cand.rank` as `add_cand` does (Operation rank field; Value rank per
`valueRank`). -/
def node_rank (env : Env) : Node → Except PyError Int
  | Node.val i =>
    match lookupVal env i with
    | none => Except.error PyError.lookupError
    | some v => Except.ok (valueRank env v)
  | Node.fn i =>
    match lookupFn env i with
    | none => Except.error PyError.lookupError
    | some f => Except.ok f.rank

/-- Models `add_cand`: push `(-cand.rank, push_count, cand)` and bump the counter. -/
def add_cand (env : Env) (st : LoopState) (cand : Node) :
    Except PyError LoopState :=
  match node_rank env cand with
  | Except.error e => Except.error e
  | Except.ok r =>
    Except.ok { st with
      cands := (-r, st.pushCount, cand) :: st.cands,
      pushCount := st.pushCount + 1 }

/-- Lines 196–199: the effective predecessor recorded for input `inp` of the
popped Operation — when collapsing and `inp.creator` is a Split, substitute
`creator.inputs[0]`, otherwise keep `inp`. -/
def effective_input (env : Env) (remove_split : Bool) (inp : Nat)
    (creator : Option Nat) : Except PyError Nat :=
  match creator with
  | some c =>
    match lookupFn env c with
    | none => Except.error PyError.lookupError
    | some cf =>
      if remove_split && cf.isSplit then
        match cf.inputs.head? with
        | none => Except.error PyError.indexError
        | some a => Except.ok a
      else Except.ok inp
  | none => Except.ok inp

/-- The `for input_ in cand.inputs` loop of the Operation branch
(lines 193–201).  Each kept input assigns the outer `creator` variable, may be
substituted through a Split, is enqueued, and its edge is recorded. -/
def processInputs (env : Env) (remove_split : Bool) (i : Nat) :
    List Nat → LoopState → Except PyError LoopState
  | [], st => Except.ok st
  | inp :: rest, st =>
    if Node.val inp ≠ Node.fn i ∧ (Node.val inp, Node.fn i) ∉ st.seen then
      match lookupVal env inp with
      | none => Except.error PyError.lookupError
      | some v =>
        match effective_input env remove_split inp v.creator with
        | Except.error e => Except.error e
        | Except.ok inp2 =>
          match add_cand env { st with creatorVar := some v.creator }
              (Node.val inp2) with
          | Except.error e => Except.error e
          | Except.ok st2 =>
            processInputs env remove_split i rest
              { st2 with seen := seen_add st2.seen (Node.val inp2, Node.fn i) }
    else processInputs env remove_split i rest st

/-- The body of the `while cands` loop for one popped candidate
(lines 178–201).  Note the Operation/Split branch (line 190) reads the outer
`creator` variable — not the own input of the popped Split — exactly as the source
does. -/
def processCand (env : Env) (remove_split : Bool) (cand : Node)
    (st : LoopState) : Except PyError LoopState :=
  match cand with
  | Node.val i =>
    match lookupVal env i with
    | none => Except.error PyError.lookupError
    | some v =>
      match v.creator with
      | some c =>
        match lookupFn env c with
        | none => Except.error PyError.lookupError
        | some f =>
          if remove_split && f.isSplit then
            match f.inputs.head? with
            | none => Except.error PyError.indexError
            | some a =>
              add_cand env { st with creatorVar := some (some c) } (Node.val a)
          else
            if (Node.fn c, Node.val i) ∈ st.seen then
              Except.ok { st with creatorVar := some (some c) }
            else
              match add_cand env { st with creatorVar := some (some c) }
                  (Node.fn c) with
              | Except.error e => Except.error e
              | Except.ok st2 =>
                Except.ok { st2 with
                  seen := seen_add st2.seen (Node.fn c, Node.val i) }
      | none => Except.ok { st with creatorVar := some none }
  | Node.fn i =>
    match lookupFn env i with
    | none => Except.error PyError.lookupError
    | some f =>
      if remove_split && f.isSplit then
        match st.creatorVar with
        | none => Except.error PyError.nameError
        | some none => Except.error PyError.attributeError
        | some (some c) =>
          match lookupFn env c with
          | none => Except.error PyError.lookupError
          | some cf =>
            match cf.inputs.head? with
            | none => Except.error PyError.indexError
            | some a => add_cand env st (Node.val a)
      else processInputs env remove_split i f.inputs st

/-- The `while cands` loop, run on explicit fuel. -/
def buildLoop (env : Env) (remove_split : Bool) :
    Nat → LoopState → Except PyError (List Edge)
  | 0, _ => Except.error PyError.fuelExhausted
  | fuel + 1, st =>
    match popMin st.cands with
    | none => Except.ok st.seen
    | some (e, rest) =>
      match processCand env remove_split e.2.2 { st with cands := rest } with
      | Except.error err => Except.error err
      | Except.ok st1 => buildLoop env remove_split fuel st1

/-- Initial enqueue: `for o in outputs: add_cand(o)`. -/
def enqueue_outputs (env : Env) : List Node → LoopState → Except PyError LoopState
  | [], st => Except.ok st
  | o :: os, st =>
    match add_cand env st o with
    | Except.error e => Except.error e
    | Except.ok st1 => enqueue_outputs env os st1

/-- A generous fuel bound (artifact of the embedding; concrete runs below stay
far inside it). -/
def build_fuel (env : Env) (outputs : List Node) : Nat :=
  let n := env.vals.length + env.fns.length + outputs.length + 1
  n * n * n + 1

structure ComputationalGraph where
  edges : List Edge
deriving DecidableEq

/-- Models `build_computational_graph(outputs, remove_split)` (lines 160-202). -/
def build_computational_graph (env : Env) (outputs : List Node)
    (remove_split : Bool) : Except PyError ComputationalGraph :=
  match enqueue_outputs env outputs init_state with
  | Except.error e => Except.error e
  | Except.ok st0 =>
    match buildLoop env remove_split (build_fuel env outputs) st0 with
    | Except.error e => Except.error e
    | Except.ok edges => Except.ok { edges := edges }

/-- Models `ComputationalGraph.__len__`. -/
def ComputationalGraph.size (g : ComputationalGraph) : Nat :=
  g.edges.length

/-- Models `ComputationalGraph.__contains__`. -/
def ComputationalGraph.contains (g : ComputationalGraph) (e : Edge) : Prop :=
  e ∈ g.edges

/-- The `assert` of `_to_dot` (lines 82–85): one endpoint must be a Variable
and the other a Function. -/
def edge_ok : Edge → Bool
  | (Node.val _, Node.fn _) => true
  | (Node.fn _, Node.val _) => true
  | _ => false

def node_id : Node → Nat
  | Node.val i => i
  | Node.fn i => i

/-- Models `DotNode.attribute["label"]`: the `label` of the wrapped node. -/
def node_label (env : Env) : Node → Except PyError String
  | Node.val i =>
    match lookupVal env i with
    | none => Except.error PyError.lookupError
    | some v => Except.ok v.label
  | Node.fn i =>
    match lookupFn env i with
    | none => Except.error PyError.lookupError
    | some f => Except.ok f.label

/-- Models `DotNode._shape`: Variable to oval, Split to hexagon, other Function to box. -/
def node_shape (env : Env) : Node → Except PyError String
  | Node.val _ => Except.ok "oval"
  | Node.fn i =>
    match lookupFn env i with
    | none => Except.error PyError.lookupError
    | some f => Except.ok (if f.isSplit then "hexagon" else "box")

/-- Models `DotNode.label`: the node declaration line with label and shape. -/
def dot_label (env : Env) (n : Node) : Except PyError String :=
  match node_label env n, node_shape env n with
  | Except.ok lbl, Except.ok shp =>
    let idn := node_id n
    Except.ok (s!"{idn} [label=\"{lbl}\",shape=\"{shp}\"];")
  | Except.error e, _ => Except.error e
  | _, Except.error e => Except.error e

/-- The directed-edge line `head_id -> tail_id;`. -/
def edge_line (e : Edge) : String :=
  let hid := node_id e.1
  let tid := node_id e.2
  s!"{hid} -> {tid};"

/-- The edge loop of `_to_dot`: assert the endpoint kinds, then append both
node declarations and the edge line. -/
def dot_lines (env : Env) : List Edge → String → Except PyError String
  | [], acc => Except.ok acc
  | e :: rest, acc =>
    if edge_ok e then
      match dot_label env e.1, dot_label env e.2 with
      | Except.ok h1, Except.ok t1 =>
        dot_lines env rest (acc ++ h1 ++ t1 ++ edge_line e)
      | Except.error err, _ => Except.error err
      | _, Except.error err => Except.error err
    else Except.error PyError.assertionError

/-- Models `ComputationalGraph._to_dot`. -/
def to_dot (env : Env) (edges : List Edge) : Except PyError String :=
  match dot_lines env edges "digraph graphname\x7b" with
  | Except.error e => Except.error e
  | Except.ok s => Except.ok (s ++ "\x7d")

/-- Models `ComputationalGraph.dump(format)`.  Faithful to line 107 of the source: for
a format other than the dot literal the `NotImplementedError` is constructed but never
raised, so the method falls through and returns `None` — hence `Except.ok none`
rather than an error. -/
def ComputationalGraph.dump (env : Env) (g : ComputationalGraph)
    (format : String) : Except PyError (Option String) :=
  if format = "dot" then
    match to_dot env g.edges with
    | Except.error e => Except.error e
    | Except.ok s => Except.ok (some s)
  else Except.ok none

/-!
The concrete test graph of the source docstring and of the testable
properties in the spec:

```
                       .--> x'  ---> f'  ---> y
   x ---> (splitter) --+
                       .--> x'' ---> f'' ---> z
```

ids: x = 0, x' = 1, x'' = 2, y = 3, z = 4; splitter = 10, f' = 11, f'' = 12.
-/

def envT : Env :=
  { vals :=
      [ { id := 0, label := "x", creator := none, rank := some 0 },
        { id := 1, label := "xp", creator := some 10, rank := some 1 },
        { id := 2, label := "xpp", creator := some 10, rank := some 1 },
        { id := 3, label := "y", creator := some 11, rank := some 2 },
        { id := 4, label := "z", creator := some 12, rank := some 2 } ],
    fns :=
      [ { id := 10, label := "splitter", inputs := [0], rank := 0,
          isSplit := true },
        { id := 11, label := "fp", inputs := [1], rank := 1, isSplit := false },
        { id := 12, label := "fpp", inputs := [2], rank := 1,
          isSplit := false } ] }

/-- A small graph whose Split has two inputs (violating the single-input
invariant), used to exercise the first-input substitution paths. -/
def envM : Env :=
  { vals :=
      [ { id := 0, label := "a", creator := none, rank := some 0 },
        { id := 1, label := "b", creator := none, rank := some 0 },
        { id := 2, label := "v", creator := some 20, rank := some 1 } ],
    fns :=
      [ { id := 20, label := "s2", inputs := [0, 1], rank := 0,
          isSplit := true } ] }

/-- The empty environment. -/
def envE : Env := { vals := [], fns := [] }

/-- Invariant of the `seen_edges` set: duplicate-free and every recorded edge
pairs one Value with one Operation. -/
def seen_ok (l : List Edge) : Prop :=
  l.Nodup ∧ ∀ e ∈ l, edge_ok e = true

/-- Claim C1: the claim states that with `collapseSplits` true, a Split
Operation popped from the work queue has its own single input Value enqueued.
The code (line 190) instead dereferences the outer `creator` variable, which is
unbound when no Variable has yet been popped: building from the Split `10` of
`envT` raises NameError instead of enqueuing its input `x` (value `0`). -/
theorem claim_C1_split_pop_reads_stale_creator :
    build_computational_graph envT [Node.fn 10] true =
      Except.error PyError.nameError := by
  rfl

/-- Claim C2 (amended): with `collapseSplits` true the build over the
split-fan-out graph from outputs `[y, z]` yields exactly the four edges
connecting `x` directly to the consumers, with no edge mentioning the Split,
`xp` or `xpp`; with `collapseSplits` false it yields the full SEVEN-edge graph
(the claim said six) including the Split node and `xp`, `xpp`. -/
theorem claim_C2_split_collapsing_amended :
    (∃ g, build_computational_graph envT [Node.val 3, Node.val 4] true =
        Except.ok g ∧
      g.edges.toFinset =
        ({(Node.val 0, Node.fn 11), (Node.fn 11, Node.val 3),
          (Node.val 0, Node.fn 12), (Node.fn 12, Node.val 4)} : Finset Edge) ∧
      ∀ e ∈ g.edges,
        e.1 ≠ Node.fn 10 ∧ e.2 ≠ Node.fn 10 ∧ e.1 ≠ Node.val 1 ∧
        e.2 ≠ Node.val 1 ∧ e.1 ≠ Node.val 2 ∧ e.2 ≠ Node.val 2) ∧
    (∃ g, build_computational_graph envT [Node.val 3, Node.val 4] false =
        Except.ok g ∧
      g.edges.toFinset =
        ({(Node.val 0, Node.fn 10), (Node.fn 10, Node.val 1),
          (Node.fn 10, Node.val 2), (Node.val 1, Node.fn 11),
          (Node.val 2, Node.fn 12), (Node.fn 11, Node.val 3),
          (Node.fn 12, Node.val 4)} : Finset Edge) ∧
      g.edges.length = 7) := by
  constructor
  · refine ⟨{ edges := [(Node.fn 11, Node.val 3), (Node.fn 12, Node.val 4),
      (Node.val 0, Node.fn 11), (Node.val 0, Node.fn 12)] }, rfl, by decide,
      by decide⟩
  · refine ⟨{ edges := [(Node.fn 11, Node.val 3), (Node.fn 12, Node.val 4),
      (Node.val 1, Node.fn 11), (Node.val 2, Node.fn 12),
      (Node.fn 10, Node.val 1), (Node.fn 10, Node.val 2),
      (Node.val 0, Node.fn 10)] }, rfl, by decide, by decide⟩

/-- Claim C2 (counterexample): the claim says `build([y, z],
collapseSplits=False)` yields the full 6-edge graph; the code yields 7 edges
(the full graph has seven arrows: x→Split, Split→xp, Split→xpp, xp→fp,
xpp→fpp, fp→y, fpp→z). -/
theorem claim_C2_six_edge_counterexample :
    ∃ g, build_computational_graph envT [Node.val 3, Node.val 4] false =
        Except.ok g ∧
      g.size = 7 ∧ ¬ g.size = 6 := by
  refine ⟨{ edges := [(Node.fn 11, Node.val 3), (Node.fn 12, Node.val 4),
    (Node.val 1, Node.fn 11), (Node.val 2, Node.fn 12),
    (Node.fn 10, Node.val 1), (Node.fn 10, Node.val 2),
    (Node.val 0, Node.fn 10)] }, rfl, by decide, by decide⟩

/-- Claim C3: the claim states that `dump` with a format other than the dot
literal fails with a distinct unsupported-format error.  The code (line 107)
evaluates `NotImplementedError(...)` without `raise`, so the call silently
falls through and returns `None` — no error is signalled and no string is
returned. -/
theorem claim_C3_dump_unsupported_format_is_silent (env : Env)
    (g : ComputationalGraph) (format : String) (h : format ≠ "dot") :
    ComputationalGraph.dump env g format = Except.ok none := by
  unfold ComputationalGraph.dump
  rw [if_neg h]

/-- Witness for claim C3 at the format `xml` on the empty graph. -/
theorem claim_C3_witness :
    "xml" ≠ "dot" ∧
      ComputationalGraph.dump envE { edges := [] } "xml" = Except.ok none :=
  ⟨by decide,
   claim_C3_dump_unsupported_format_is_silent envE { edges := [] } "xml"
     (by decide)⟩

/-- Claim C4: reachability pruning — `build([y], collapseSplits=True)` over
the split-fan-out graph yields exactly the edges (x, fp) and (fp, y), and no
edge mentions z, fpp, xpp or the Split. -/
theorem claim_C4_reachability_pruning :
    ∃ g, build_computational_graph envT [Node.val 3] true = Except.ok g ∧
      g.edges.toFinset =
        ({(Node.val 0, Node.fn 11), (Node.fn 11, Node.val 3)} : Finset Edge) ∧
      ∀ e ∈ g.edges,
        e.1 ≠ Node.val 4 ∧ e.2 ≠ Node.val 4 ∧ e.1 ≠ Node.fn 12 ∧
        e.2 ≠ Node.fn 12 ∧ e.1 ≠ Node.val 2 ∧ e.2 ≠ Node.val 2 ∧
        e.1 ≠ Node.fn 10 ∧ e.2 ≠ Node.fn 10 := by
  refine ⟨{ edges := [(Node.fn 11, Node.val 3), (Node.val 0, Node.fn 11)] },
    rfl, by decide, by decide⟩

/-- Claim C7: the claim states the work-queue loop always empties for finite
acyclic graphs.  Because of the stale-`creator` dereference (line 190), popping
a Split that was passed as an output raises NameError while another candidate
is still queued: the loop terminates by exception, the queue never empties. -/
theorem claim_C7_loop_aborts_with_pending_queue :
    build_computational_graph envT [Node.fn 10, Node.val 0] true =
      Except.error PyError.nameError ∧
    ∃ st0 e rest,
      enqueue_outputs envT [Node.fn 10, Node.val 0] init_state =
        Except.ok st0 ∧
      popMin st0.cands = some (e, rest) ∧ e.2.2 = Node.fn 10 ∧ rest ≠ [] ∧
      processCand envT true e.2.2 { st0 with cands := rest } =
        Except.error PyError.nameError := by
  refine ⟨rfl,
    { cands := [(0, 1, Node.val 0), (0, 0, Node.fn 10)], pushCount := 2,
      seen := [], creatorVar := none },
    (0, 0, Node.fn 10), [(0, 1, Node.val 0)], rfl, rfl, rfl, by decide, rfl⟩

/-- Adding an alternating edge to a well-formed seen set keeps it
well-formed. -/
theorem seen_add_ok {l : List Edge} {e : Edge} (hl : seen_ok l)
    (he : edge_ok e = true) : seen_ok (seen_add l e) := by
  unfold seen_add
  split
  · exact hl
  · rename_i hne
    constructor
    · rw [List.nodup_append]
      refine ⟨hl.1, List.nodup_singleton e, ?_⟩
      intro a ha hae
      rw [List.mem_singleton] at hae
      subst hae
      exact hne ha
    · intro x hx
      rcases List.mem_append.mp hx with h | h
      · exact hl.2 x h
      · rw [List.mem_singleton] at h
        subst h
        exact he

/-- Pushing a candidate never touches the seen set. -/
theorem add_cand_seen {env : Env} {st : LoopState} {n : Node}
    {st' : LoopState} (h : add_cand env st n = Except.ok st') :
    st'.seen = st.seen := by
  unfold add_cand at h
  split at h
  · exact Except.noConfusion h
  · cases h
    rfl

/-- The input loop of the Operation branch preserves the seen-set
invariant. -/
theorem processInputs_seen_ok {env : Env} {rs : Bool} {i : Nat} :
    ∀ (l : List Nat) (st st' : LoopState),
      processInputs env rs i l st = Except.ok st' →
      seen_ok st.seen → seen_ok st'.seen := by
  intro l
  induction l with
  | nil =>
    intro st st' h hs
    unfold processInputs at h
    cases h
    exact hs
  | cons inp rest ih =>
    intro st st' h hs
    unfold processInputs at h
    split at h
    · split at h
      · exact Except.noConfusion h
      · split at h
        · exact Except.noConfusion h
        · split at h
          · exact Except.noConfusion h
          · rename_i st2 hst2
            refine ih _ _ h ?_
            have h2 := add_cand_seen hst2
            refine seen_add_ok ?_ rfl
            rw [h2]
            exact hs
    · exact ih _ _ h hs

/-- One loop iteration preserves the seen-set invariant. -/
theorem processCand_seen_ok {env : Env} {rs : Bool} {c : Node}
    {st st' : LoopState} (h : processCand env rs c st = Except.ok st')
    (hs : seen_ok st.seen) : seen_ok st'.seen := by
  unfold processCand at h
  split at h
  case _ i =>
    split at h
    · exact Except.noConfusion h
    · split at h
      · split at h
        · exact Except.noConfusion h
        · split at h
          · split at h
            · exact Except.noConfusion h
            · have h2 := add_cand_seen h
              rw [h2]
              exact hs
          · split at h
            · cases h
              exact hs
            · split at h
              · exact Except.noConfusion h
              · rename_i st2 hst2
                cases h
                have h2 := add_cand_seen hst2
                refine seen_add_ok ?_ rfl
                rw [h2]
                exact hs
      · cases h
        exact hs
  case _ i =>
    split at h
    · exact Except.noConfusion h
    · split at h
      · split at h
        · exact Except.noConfusion h
        · exact Except.noConfusion h
        · split at h
          · exact Except.noConfusion h
          · split at h
            · exact Except.noConfusion h
            · have h2 := add_cand_seen h
              rw [h2]
              exact hs
      · exact processInputs_seen_ok _ _ _ h hs

/-- The whole work-queue loop preserves the seen-set invariant. -/
theorem buildLoop_seen_ok {env : Env} {rs : Bool} :
    ∀ (fuel : Nat) (st : LoopState) (edges : List Edge),
      buildLoop env rs fuel st = Except.ok edges →
      seen_ok st.seen → seen_ok edges := by
  intro fuel
  induction fuel with
  | zero =>
    intro st edges h _
    exact Except.noConfusion h
  | succ n ih =>
    intro st edges h hs
    unfold buildLoop at h
    split at h
    · cases h
      exact hs
    · split at h
      · exact Except.noConfusion h
      · rename_i st1 h1
        exact ih _ _ h (processCand_seen_ok h1 hs)

/-- The initial enqueue of the outputs never touches the seen set. -/
theorem enqueue_outputs_seen {env : Env} :
    ∀ (l : List Node) (st st' : LoopState),
      enqueue_outputs env l st = Except.ok st' → st'.seen = st.seen := by
  intro l
  induction l with
  | nil =>
    intro st st' h
    cases h
    rfl
  | cons o os ih =>
    intro st st' h
    unfold enqueue_outputs at h
    split at h
    · exact Except.noConfusion h
    · rename_i st1 h1
      rw [ih _ _ h, add_cand_seen h1]

/-- Claim C5: every graph the builder returns is duplicate-free — the edge
list holds at most one instance of each (producer, consumer) pair — and its
size equals the number of distinct recorded pairs. -/
theorem claim_C5_no_duplicate_edges (env : Env) (outputs : List Node)
    (remove_split : Bool) (g : ComputationalGraph)
    (h : build_computational_graph env outputs remove_split = Except.ok g) :
    g.edges.Nodup ∧ g.size = g.edges.toFinset.card := by
  unfold build_computational_graph at h
  split at h
  · exact Except.noConfusion h
  · rename_i st0 h0
    split at h
    · exact Except.noConfusion h
    · rename_i edges hloop
      cases h
      have hs0 : seen_ok st0.seen := by
        rw [enqueue_outputs_seen _ _ _ h0]
        exact ⟨List.nodup_nil, by intro e he; cases he⟩
      have hres := buildLoop_seen_ok _ _ _ hloop hs0
      refine ⟨hres.1, ?_⟩
      unfold ComputationalGraph.size
      exact (List.toFinset_card_of_nodup hres.1).symm

/-- Witness for claim C5: the collapsed build of the split-fan-out graph. -/
theorem claim_C5_witness :
    (ComputationalGraph.mk [(Node.fn 11, Node.val 3), (Node.fn 12, Node.val 4),
      (Node.val 0, Node.fn 11), (Node.val 0, Node.fn 12)]).edges.Nodup ∧
    ComputationalGraph.size
      (ComputationalGraph.mk [(Node.fn 11, Node.val 3),
        (Node.fn 12, Node.val 4), (Node.val 0, Node.fn 11),
        (Node.val 0, Node.fn 12)]) =
      (ComputationalGraph.mk [(Node.fn 11, Node.val 3),
        (Node.fn 12, Node.val 4), (Node.val 0, Node.fn 11),
        (Node.val 0, Node.fn 12)]).edges.toFinset.card :=
  claim_C5_no_duplicate_edges envT [Node.val 3, Node.val 4] true
    (ComputationalGraph.mk [(Node.fn 11, Node.val 3), (Node.fn 12, Node.val 4),
      (Node.val 0, Node.fn 11), (Node.val 0, Node.fn 12)]) rfl

/-- Errors of `node_label` are always the lookup artifact. -/
theorem node_label_err {env : Env} {n : Node} {e : PyError}
    (h : node_label env n = Except.error e) : e = PyError.lookupError := by
  cases n with
  | val i =>
    simp only [node_label] at h
    cases hl : lookupVal env i with
    | none =>
      rw [hl] at h
      exact (Except.error.inj h).symm
    | some v =>
      rw [hl] at h
      exact Except.noConfusion h
  | fn i =>
    simp only [node_label] at h
    cases hl : lookupFn env i with
    | none =>
      rw [hl] at h
      exact (Except.error.inj h).symm
    | some f =>
      rw [hl] at h
      exact Except.noConfusion h

/-- Errors of `node_shape` are always the lookup artifact. -/
theorem node_shape_err {env : Env} {n : Node} {e : PyError}
    (h : node_shape env n = Except.error e) : e = PyError.lookupError := by
  cases n with
  | val i =>
    simp only [node_shape] at h
    exact Except.noConfusion h
  | fn i =>
    simp only [node_shape] at h
    cases hl : lookupFn env i with
    | none =>
      rw [hl] at h
      exact (Except.error.inj h).symm
    | some f =>
      rw [hl] at h
      exact Except.noConfusion h

/-- A node declaration either renders or fails with the lookup artifact; it
never raises the assertion error. -/
theorem dot_label_cases (env : Env) (n : Node) :
    (∃ s, dot_label env n = Except.ok s) ∨
      dot_label env n = Except.error PyError.lookupError := by
  cases h1 : node_label env n with
  | error e =>
    cases node_label_err h1
    refine Or.inr ?_
    unfold dot_label
    rw [h1]
    cases h2 : node_shape env n with
    | error e2 =>
      cases node_shape_err h2
      rfl
    | ok s2 => rfl
  | ok s1 =>
    cases h2 : node_shape env n with
    | error e2 =>
      cases node_shape_err h2
      refine Or.inr ?_
      unfold dot_label
      rw [h1, h2]
    | ok s2 =>
      refine Or.inl ?_
      unfold dot_label
      rw [h1, h2]
      exact ⟨_, rfl⟩

/-- If every edge of the list alternates, the rendering loop never raises the
assertion error. -/
theorem dot_lines_no_assert {env : Env} :
    ∀ (l : List Edge) (acc : String), (∀ e ∈ l, edge_ok e = true) →
      dot_lines env l acc ≠ Except.error PyError.assertionError := by
  intro l
  induction l with
  | nil =>
    intro acc _ hcontra
    exact Except.noConfusion hcontra
  | cons e rest ih =>
    intro acc hall hcontra
    unfold dot_lines at hcontra
    rw [if_pos (hall e (List.mem_cons_self e rest))] at hcontra
    have htail : ∀ x ∈ rest, edge_ok x = true :=
      fun x hx => hall x (List.mem_cons_of_mem e hx)
    rcases dot_label_cases env e.1 with ⟨s1, h1⟩ | h1 <;>
      rcases dot_label_cases env e.2 with ⟨s2, h2⟩ | h2 <;>
        rw [h1, h2] at hcontra
    · exact ih _ htail hcontra
    · exact PyError.noConfusion (Except.error.inj hcontra)
    · exact PyError.noConfusion (Except.error.inj hcontra)
    · exact PyError.noConfusion (Except.error.inj hcontra)

/-- Claim C6: every edge the builder records pairs exactly one Value with one
Operation, so the per-edge assertion of the dot rendering holds on builder
output and its failure branch is unreachable there; on an edge violating
alternation the rendering fails fast with the assertion error. -/
theorem claim_C6_edge_alternation (env : Env) (outputs : List Node)
    (remove_split : Bool) (g : ComputationalGraph)
    (h : build_computational_graph env outputs remove_split = Except.ok g) :
    g.edges.all edge_ok = true ∧
    to_dot env g.edges ≠ Except.error PyError.assertionError ∧
    ∀ (env2 : Env) (e : Edge), edge_ok e = false →
      to_dot env2 [e] = Except.error PyError.assertionError := by
  have halt : ∀ e ∈ g.edges, edge_ok e = true := by
    unfold build_computational_graph at h
    split at h
    · exact Except.noConfusion h
    · rename_i st0 h0
      split at h
      · exact Except.noConfusion h
      · rename_i edges hloop
        cases h
        have hs0 : seen_ok st0.seen := by
          rw [enqueue_outputs_seen _ _ _ h0]
          exact ⟨List.nodup_nil, by intro e he; cases he⟩
        exact (buildLoop_seen_ok _ _ _ hloop hs0).2
  refine ⟨List.all_eq_true.mpr halt, ?_, ?_⟩
  · intro hcontra
    unfold to_dot at hcontra
    split at hcontra
    · rename_i herr
      rw [Except.error.inj hcontra] at herr
      exact dot_lines_no_assert _ _ halt herr
    · exact Except.noConfusion hcontra
  · intro env2 e he
    unfold to_dot dot_lines
    rw [he]
    rfl

/-- Witness for claim C6: the pruned build from output z, plus a fabricated
Value-to-Value edge rejected by the rendering. -/
theorem claim_C6_witness :
    (ComputationalGraph.mk [(Node.fn 12, Node.val 4),
      (Node.val 0, Node.fn 12)]).edges.all edge_ok = true ∧
    to_dot envT (ComputationalGraph.mk [(Node.fn 12, Node.val 4),
      (Node.val 0, Node.fn 12)]).edges ≠
      Except.error PyError.assertionError ∧
    to_dot envE [(Node.val 0, Node.val 1)] =
      Except.error PyError.assertionError := by
  have h := claim_C6_edge_alternation envT [Node.val 4] true
    (ComputationalGraph.mk [(Node.fn 12, Node.val 4), (Node.val 0, Node.fn 12)])
    rfl
  exact ⟨h.1, h.2.1, h.2.2 envE (Node.val 0, Node.val 1) rfl⟩

/-- Claim C9: the priority-ordering rank of a Value passed to `add_cand` is
its own rank when it carries one, else the rank of its creator, else the
minimal default 0; the pushed heap entry carries the negated rank and the
current push count. -/
theorem claim_C9_output_value_rank (env : Env) (st : LoopState) (i : Nat)
    (v : Variable) (h : lookupVal env i = some v) :
    add_cand env st (Node.val i) = Except.ok { st with
        cands := (-(valueRank env v), st.pushCount, Node.val i) :: st.cands,
        pushCount := st.pushCount + 1 } ∧
    ((∃ r, v.rank = some r ∧ valueRank env v = r) ∨
     (v.rank = none ∧
       ∃ c f, v.creator = some c ∧ lookupFn env c = some f ∧
         valueRank env v = f.rank) ∨
     (v.rank = none ∧ valueRank env v = 0 ∧
       (v.creator = none ∨
         ∀ c, v.creator = some c → lookupFn env c = none))) := by
  constructor
  · simp only [add_cand, node_rank, h]
  · rcases hr : v.rank with _ | r
    · rcases hc : v.creator with _ | c
      · exact Or.inr (Or.inr ⟨rfl, by simp [valueRank, hr, hc], Or.inl rfl⟩)
      · rcases hf : lookupFn env c with _ | f
        · refine Or.inr (Or.inr ⟨rfl, by simp [valueRank, hr, hc, hf],
            Or.inr ?_⟩)
          intro c2 hc2
          cases Option.some.inj hc2
          exact hf
        · exact Or.inr (Or.inl ⟨rfl, c, f, rfl, hf,
            by simp [valueRank, hr, hc, hf]⟩)
    · exact Or.inl ⟨r, rfl, by simp [valueRank, hr]⟩

/-- Witness for claim C9 at the output Value y of the test graph. -/
theorem claim_C9_witness :
    add_cand envT init_state (Node.val 3) = Except.ok { init_state with
        cands := (-(valueRank envT
            { id := 3, label := "y", creator := some 11, rank := some 2 }),
          init_state.pushCount, Node.val 3) :: init_state.cands,
        pushCount := init_state.pushCount + 1 } ∧
    ((∃ r, Variable.rank
        { id := 3, label := "y", creator := some 11, rank := some 2 } =
          some r ∧
        valueRank envT
          { id := 3, label := "y", creator := some 11, rank := some 2 } = r) ∨
     (Variable.rank
        { id := 3, label := "y", creator := some 11, rank := some 2 } = none ∧
       ∃ c f, Variable.creator
           { id := 3, label := "y", creator := some 11, rank := some 2 } =
             some c ∧
         lookupFn envT c = some f ∧
         valueRank envT
           { id := 3, label := "y", creator := some 11, rank := some 2 } =
           f.rank) ∨
     (Variable.rank
        { id := 3, label := "y", creator := some 11, rank := some 2 } = none ∧
       valueRank envT
         { id := 3, label := "y", creator := some 11, rank := some 2 } = 0 ∧
       (Variable.creator
          { id := 3, label := "y", creator := some 11, rank := some 2 } =
            none ∨
         ∀ c, Variable.creator
             { id := 3, label := "y", creator := some 11, rank := some 2 } =
               some c →
           lookupFn envT c = none))) :=
  claim_C9_output_value_rank envT init_state 3
    { id := 3, label := "y", creator := some 11, rank := some 2 } rfl

/-- Claim C10: with `collapseSplits` true, a creator Split with more than one
input is silently bypassed through its FIRST input; the remaining inputs are
ignored and no error is signalled — in both the Value branch (popped Value
whose creator is a Split) and the Operation-input branch (input whose creator
is a Split). -/
theorem claim_C10_split_first_input_substitution (env : Env) (st : LoopState)
    (i c a : Nat) (v va : Variable) (f : Function) (l : List Nat)
    (hv : lookupVal env i = some v) (hc : v.creator = some c)
    (hf : lookupFn env c = some f) (hs : f.isSplit = true)
    (hi : f.inputs = a :: l) (ha : lookupVal env a = some va) :
    processCand env true (Node.val i) st = Except.ok { st with
        creatorVar := some (some c),
        cands := (-(valueRank env va), st.pushCount, Node.val a) :: st.cands,
        pushCount := st.pushCount + 1 } ∧
    ∀ (j : Nat) (rest : List Nat), (Node.val i, Node.fn j) ∉ st.seen →
      processInputs env true j (i :: rest) st =
        processInputs env true j rest
          { st with
            creatorVar := some (some c),
            cands := (-(valueRank env va), st.pushCount, Node.val a) ::
              st.cands,
            pushCount := st.pushCount + 1,
            seen := seen_add st.seen (Node.val a, Node.fn j) } := by
  constructor
  · simp [processCand, add_cand, node_rank, hv, hc, hf, hs, hi, ha]
  · intro j rest hmem
    simp [processInputs, effective_input, add_cand, node_rank, hv, hc, hf,
      hs, hi, ha, hmem]

/-- Witness for claim C10 on the two-input Split of `envM`. -/
theorem claim_C10_witness :
    processCand envM true (Node.val 2) init_state = Except.ok
      { init_state with
        creatorVar := some (some 20),
        cands := (-(valueRank envM
            { id := 0, label := "a", creator := none, rank := some 0 }),
          init_state.pushCount, Node.val 0) :: init_state.cands,
        pushCount := init_state.pushCount + 1 } ∧
    processInputs envM true 7 [2] init_state =
      processInputs envM true 7 []
        { init_state with
          creatorVar := some (some 20),
          cands := (-(valueRank envM
              { id := 0, label := "a", creator := none, rank := some 0 }),
            init_state.pushCount, Node.val 0) :: init_state.cands,
          pushCount := init_state.pushCount + 1,
          seen := seen_add init_state.seen (Node.val 0, Node.fn 7) } := by
  have h := claim_C10_split_first_input_substitution envM init_state 2 20 0
    { id := 2, label := "v", creator := some 20, rank := some 1 }
    { id := 0, label := "a", creator := none, rank := some 0 }
    { id := 20, label := "s2", inputs := [0, 1], rank := 0, isSplit := true }
    [1] rfl rfl rfl rfl rfl rfl
  exact ⟨h.1, h.2 7 [] (by decide)⟩

/-- Claim C8: building from an empty outputs list yields a graph of size 0
whose dot dump is an opened and immediately closed graph block. -/
theorem claim_C8_empty_outputs (env : Env) (rs : Bool) :
    build_computational_graph env [] rs = Except.ok { edges := [] } ∧
    ComputationalGraph.size { edges := [] } = 0 ∧
    ComputationalGraph.dump env { edges := [] } "dot" =
      Except.ok (some "digraph graphname\x7b\x7d") := by
  exact ⟨rfl, rfl, rfl⟩

end Chainer
